import Mathlib

/-!
A shallow embedding of the `BreathBubbles` canvas particle system from
`assets/js/breathbubbles.js`.  JavaScript numbers are idealized as real
numbers; calls to `Math.random()` are modelled by explicit draw parameters
in `[0, 1)` supplied by the caller; `Math.hypot` is the Euclidean norm.
The per-frame update loop (lines 78–114 of the source) is decomposed into
the stages in which the source performs it: breathing-radius update,
movement, vertical recycle, horizontal wrap, pointer interaction.
-/

namespace BreathBubbles

noncomputable section

/-- The option record assembled by the constructor via `Object.assign`
(source lines 9–21), with the numeric defaults of the source. -/
structure Options where
  bubbleCount : Int
  baseHue : ℝ
  hueRange : ℝ
  minRadius : ℝ
  maxRadius : ℝ
  floatSpeedLo : ℝ
  floatSpeedHi : ℝ
  wobbleStrength : ℝ
  breathingPeriod : ℝ
  connectionDistance : ℝ
  interactiveForce : ℝ
  parallax : ℝ

/-- The default options object (source lines 10–20). -/
def defaultOptions : Options :=
  { bubbleCount := 42
    baseHue := 190
    hueRange := 40
    minRadius := 14
    maxRadius := 64
    floatSpeedLo := 0.12
    floatSpeedHi := 0.55
    wobbleStrength := 0.55
    breathingPeriod := 6400
    connectionDistance := 148
    interactiveForce := 0.12
    parallax := 0.06 }

/-- One bubble record as built by `makeBubble` (source lines 64–76). -/
structure Bubble where
  x : ℝ
  y : ℝ
  r : ℝ
  baseR : ℝ
  hue : ℝ
  vy : ℝ
  vx : ℝ
  wobbleSeed : ℝ

/-- The pointer state kept in `this.mouse` (source line 25). -/
structure Mouse where
  x : ℝ
  y : ℝ
  active : Bool

/-- `rand(min, max)` = `Math.random() * (max - min) + min` (source line 55),
with the `Math.random()` result passed in as `u`. -/
def rand (lo hi u : ℝ) : ℝ :=
  u * (hi - lo) + lo

/-- The random draws consumed by one `makeBubble` call, each modelling one
`Math.random()` result in `[0, 1)`. -/
structure Draws where
  ux : ℝ
  uy : ℝ
  ur : ℝ
  uh : ℝ
  uv : ℝ
  uvx : ℝ
  uw : ℝ

/-- `makeBubble()` (source lines 64–76): radius drawn once and stored as
both `r` and `baseR`, position uniform on the canvas, hue = `baseHue` ±
`hueRange/2`, upward vertical velocity, small signed horizontal velocity,
wobble seed in `[0, 1000)`. -/
def makeBubble (o : Options) (cw ch : ℝ) (d : Draws) : Bubble :=
  { x := d.ux * cw
    y := d.uy * ch
    r := rand o.minRadius o.maxRadius d.ur
    baseR := rand o.minRadius o.maxRadius d.ur
    hue := o.baseHue + rand (-(o.hueRange / 2)) (o.hueRange / 2) d.uh
    vy := -(rand o.floatSpeedLo o.floatSpeedHi d.uv)
    vx := rand (-0.15) 0.15 d.uvx
    wobbleSeed := d.uw * 1000 }

/-- `init()` (source lines 57–62): empty the array, then push `bubbleCount`
fresh bubbles.  A JavaScript `for (let i = 0; i < n; i++)` loop with an
integer bound runs `max n 0` times, i.e. `n.toNat` times. -/
def init (o : Options) (cw ch : ℝ) (ds : ℕ → Draws) : List Bubble :=
  (List.range o.bubbleCount.toNat).map fun i => makeBubble o cw ch (ds i)

/-- The field state set up by the constructor (source lines 5–33): merged
options, the bubble array filled by `init`, and an inactive mouse. -/
structure Field where
  options : Options
  bubbles : List Bubble
  mouse : Mouse

/-- The constructor (source lines 5–33) restricted to the state the claims
concern: it performs no validation of the configuration; it stores the
options, runs `init`, and starts with an inactive pointer. -/
def construct (o : Options) (cw ch : ℝ) (ds : ℕ → Draws) : Field :=
  { options := o
    bubbles := init o cw ch ds
    mouse := { x := 0, y := 0, active := false } }

/-- The shared per-tick breathing factor (source line 83):
`(Math.sin((t / breathingPeriod) * Math.PI * 2) + 1) / 2`. -/
noncomputable def breathAt (o : Options) (t : ℝ) : ℝ :=
  (Real.sin (t / o.breathingPeriod * (Real.pi * 2)) + 1) / 2

/-- Breathing-radius stage (source lines 88–89):
`b.r = b.baseR * (0.82 + breath * 0.36)`. -/
def breathe (breath : ℝ) (b : Bubble) : Bubble :=
  { b with r := b.baseR * (0.82 + breath * 0.36) }

/-- Movement stage (source lines 92–93): vertical drift scaled by the
breath, horizontal drift plus the per-particle wobble oscillation. -/
noncomputable def move (o : Options) (t breath : ℝ) (b : Bubble) : Bubble :=
  { b with
    y := b.y + b.vy * (0.6 + breath * 0.8)
    x := b.x + b.vx + Real.sin ((t + b.wobbleSeed) * 0.0018) * o.wobbleStrength }

/-- Vertical recycle stage (source lines 96–99): when the bubble has fully
left the top (`y + r < 0`), reposition to below the bottom edge with a fresh
random horizontal position `u * width`; otherwise unchanged. -/
def recycle (cw ch : ℝ) (u : ℝ) (b : Bubble) : Bubble :=
  if b.y + b.r < 0 then { b with y := ch + b.r * 2, x := u * cw } else b

/-- Horizontal wrap stage (source lines 100–101): `if (x - r > width) x = -r;
else if (x + r < 0) x = width + r`. -/
def wrap (cw : ℝ) (b : Bubble) : Bubble :=
  if b.x - b.r > cw then { b with x := -b.r }
  else if b.x + b.r < 0 then { b with x := cw + b.r }
  else b

/-- The force multiplier of the pointer interaction (source line 109):
`(1 - dist / (180 * dpr)) * interactiveForce`. -/
noncomputable def forceFactor (o : Options) (dpr dist : ℝ) : ℝ :=
  (1 - dist / (180 * dpr)) * o.interactiveForce

/-- The `dist` local of the interaction stage (source lines 105–107):
`Math.hypot(b.x - mouse.x, b.y - mouse.y)`, the Euclidean distance from the
bubble's centre to the pointer. -/
noncomputable def distToMouse (m : Mouse) (b : Bubble) : ℝ :=
  Real.sqrt ((b.x - m.x) * (b.x - m.x) + (b.y - m.y) * (b.y - m.y))

/-- Pointer-interaction stage (source lines 104–113): when the pointer is
active and the bubble is within `180 * dpr` of it, add `(dx, dy) * force`
to the position, where `(dx, dy) = (b.x - mouse.x, b.y - mouse.y)` points
from the pointer to the bubble and `force` is `forceFactor` at `dist`. -/
noncomputable def interact (o : Options) (dpr : ℝ) (m : Mouse) (b : Bubble) : Bubble :=
  if m.active then
    if distToMouse m b < 180 * dpr then
      { b with
        x := b.x + (b.x - m.x) * forceFactor o dpr (distToMouse m b)
        y := b.y + (b.y - m.y) * forceFactor o dpr (distToMouse m b) }
    else b
  else b

/-- The whole per-bubble body of the update loop of `frame` (source lines
86–114), in source order: breathing radius, movement, recycle, wrap,
interaction.  `u` is the `Math.random()` draw the recycle would consume. -/
noncomputable def updateBubble (o : Options) (dpr cw ch : ℝ) (m : Mouse)
    (t u : ℝ) (b : Bubble) : Bubble :=
  interact o dpr m (wrap cw (recycle cw ch u (move o t (breathAt o t) (breathe (breathAt o t) b))))

/-- The loop of the update half of `frame()`, walking the bubble list while
threading the index of the bubble being updated, so that `us i` is the
random draw available to the `i`-th bubble's recycle check. -/
noncomputable def frameAux (o : Options) (dpr cw ch : ℝ) (m : Mouse)
    (t : ℝ) (us : ℕ → ℝ) : ℕ → List Bubble → List Bubble
  | _, [] => []
  | i, b :: bs =>
      updateBubble o dpr cw ch m t (us i) b :: frameAux o dpr cw ch m t us (i + 1) bs

/-- The update half of `frame()` (source lines 78–114): every bubble is
updated in place. -/
noncomputable def frame (o : Options) (dpr cw ch : ℝ) (m : Mouse)
    (t : ℝ) (us : ℕ → ℝ) (bs : List Bubble) : List Bubble :=
  frameAux o dpr cw ch m t us 0 bs

/-- Magnitude of the positional displacement the interaction stage applies
to a bubble in one tick. -/
noncomputable def interactDisp (o : Options) (dpr : ℝ) (m : Mouse) (b : Bubble) : ℝ :=
  Real.sqrt (((interact o dpr m b).x - b.x) * ((interact o dpr m b).x - b.x) +
    ((interact o dpr m b).y - b.y) * ((interact o dpr m b).y - b.y))

/-- A pointer resting at the origin, active (test fixture). -/
def cMouse : Mouse :=
  { x := 0, y := 0, active := true }

/-- An inactive pointer (test fixture). -/
def mInactive : Mouse :=
  { x := 0, y := 0, active := false }

/-- A bubble 10 device pixels to the right of the origin (test fixture). -/
def cBubbleNear : Bubble :=
  { x := 10, y := 0, r := 5, baseR := 5, hue := 190, vy := -0.2, vx := 0, wobbleSeed := 0 }

/-- A bubble 90 device pixels to the right of the origin (test fixture). -/
def cBubbleFar : Bubble :=
  { x := 90, y := 0, r := 5, baseR := 5, hue := 190, vy := -0.2, vx := 0, wobbleSeed := 0 }

/-- A bubble at `x = width + r + 1` for a 100-wide surface (test fixture). -/
def wrapBubble : Bubble :=
  { x := 111, y := 50, r := 10, baseR := 10, hue := 190, vy := -0.2, vx := 0, wobbleSeed := 0 }

/-- A bubble fully above the top edge, `y + r < 0` (test fixture). -/
def recycleBubble : Bubble :=
  { x := 5, y := -20, r := 10, baseR := 10, hue := 190, vy := -0.2, vx := 0.1, wobbleSeed := 7 }

/-- The configuration of the C3 scenario: one particle, radius range
pinned to 10. -/
def scenarioOptions : Options :=
  { defaultOptions with bubbleCount := 1, minRadius := 10, maxRadius := 10 }

/-- An invalid configuration: inverted radius range (min 20 > max 10),
five particles. -/
def badOptions : Options :=
  { defaultOptions with bubbleCount := 5, minRadius := 20, maxRadius := 10 }

/-- A draw stream returning 0 for every random call (test fixture). -/
def dsZero : ℕ → Draws :=
  fun _ => { ux := 0, uy := 0, ur := 0, uh := 0, uv := 0, uvx := 0, uw := 0 }

/-- A draw stream returning 1/2 for every random call (test fixture). -/
def dsHalf : ℕ → Draws :=
  fun _ => { ux := 1/2, uy := 1/2, ur := 1/2, uh := 1/2, uv := 1/2, uvx := 1/2, uw := 1/2 }

/-! ### Helper lemmas -/

theorem breathAt_nonneg (o : Options) (t : ℝ) : 0 ≤ breathAt o t := by
  unfold breathAt
  have h := Real.neg_one_le_sin (t / o.breathingPeriod * (Real.pi * 2))
  linarith

theorem breathAt_le_one (o : Options) (t : ℝ) : breathAt o t ≤ 1 := by
  unfold breathAt
  have h := Real.sin_le_one (t / o.breathingPeriod * (Real.pi * 2))
  linarith

theorem breathAt_zero (o : Options) : breathAt o 0 = 1 / 2 := by
  unfold breathAt
  rw [zero_div, zero_mul, Real.sin_zero]
  norm_num

theorem recycle_r (cw ch u : ℝ) (b : Bubble) : (recycle cw ch u b).r = b.r := by
  unfold recycle
  split_ifs <;> rfl

theorem recycle_baseR (cw ch u : ℝ) (b : Bubble) : (recycle cw ch u b).baseR = b.baseR := by
  unfold recycle
  split_ifs <;> rfl

theorem wrap_r (cw : ℝ) (b : Bubble) : (wrap cw b).r = b.r := by
  unfold wrap
  split_ifs <;> rfl

theorem wrap_baseR (cw : ℝ) (b : Bubble) : (wrap cw b).baseR = b.baseR := by
  unfold wrap
  split_ifs <;> rfl

theorem wrap_y (cw : ℝ) (b : Bubble) : (wrap cw b).y = b.y := by
  unfold wrap
  split_ifs <;> rfl

theorem interact_r (o : Options) (dpr : ℝ) (m : Mouse) (b : Bubble) :
    (interact o dpr m b).r = b.r := by
  unfold interact
  split_ifs <;> rfl

theorem interact_baseR (o : Options) (dpr : ℝ) (m : Mouse) (b : Bubble) :
    (interact o dpr m b).baseR = b.baseR := by
  unfold interact
  split_ifs <;> rfl

theorem interact_inactive (o : Options) (dpr : ℝ) (m : Mouse) (b : Bubble)
    (hm : m.active = false) : interact o dpr m b = b := by
  unfold interact
  simp [hm]

theorem update_r (o : Options) (dpr cw ch : ℝ) (m : Mouse) (t u : ℝ) (b : Bubble) :
    (updateBubble o dpr cw ch m t u b).r = b.baseR * (0.82 + breathAt o t * 0.36) := by
  unfold updateBubble
  rw [interact_r, wrap_r, recycle_r]
  rfl

theorem update_baseR (o : Options) (dpr cw ch : ℝ) (m : Mouse) (t u : ℝ) (b : Bubble) :
    (updateBubble o dpr cw ch m t u b).baseR = b.baseR := by
  unfold updateBubble
  rw [interact_baseR, wrap_baseR, recycle_baseR]
  rfl

theorem sqrt_val (a b : ℝ) (ha : 0 ≤ a) (hab : b = a * a) : Real.sqrt b = a := by
  rw [hab, Real.sqrt_mul_self ha]

theorem dist_scale (dx dy f : ℝ) (hf : 0 ≤ 1 + f) :
    Real.sqrt ((dx * (1 + f)) * (dx * (1 + f)) + (dy * (1 + f)) * (dy * (1 + f)))
      = (1 + f) * Real.sqrt (dx * dx + dy * dy) := by
  have h : (dx * (1 + f)) * (dx * (1 + f)) + (dy * (1 + f)) * (dy * (1 + f))
      = ((1 + f) * (1 + f)) * (dx * dx + dy * dy) := by ring
  rw [h, Real.sqrt_mul (by positivity) (dx * dx + dy * dy), Real.sqrt_mul_self hf]

theorem interact_dist_eq (o : Options) (dpr : ℝ) (m : Mouse) (b : Bubble)
    (hm : m.active = true) (hd : distToMouse m b < 180 * dpr)
    (hf : 0 ≤ 1 + forceFactor o dpr (distToMouse m b)) :
    distToMouse m (interact o dpr m b)
      = (1 + forceFactor o dpr (distToMouse m b)) * distToMouse m b := by
  unfold interact
  simp only [hm, if_true]
  rw [if_pos hd]
  set f := forceFactor o dpr (distToMouse m b) with hfdef
  unfold distToMouse
  dsimp only
  have h : (b.x + (b.x - m.x) * f - m.x) * (b.x + (b.x - m.x) * f - m.x) +
        (b.y + (b.y - m.y) * f - m.y) * (b.y + (b.y - m.y) * f - m.y)
      = ((b.x - m.x) * (1 + f)) * ((b.x - m.x) * (1 + f)) +
        ((b.y - m.y) * (1 + f)) * ((b.y - m.y) * (1 + f)) := by ring
  rw [h, dist_scale _ _ _ hf]

theorem wrap_x_lb (cw : ℝ) (b : Bubble) (hr : 0 ≤ b.r) (hcw : 0 ≤ cw) :
    -b.r ≤ (wrap cw b).x := by
  unfold wrap
  split_ifs with h1 h2
  · show -b.r ≤ -b.r
    linarith
  · show -b.r ≤ cw + b.r
    linarith
  · show -b.r ≤ b.x
    push_neg at h2
    linarith

theorem wrap_x_ub (cw : ℝ) (b : Bubble) (hr : 0 ≤ b.r) (hcw : 0 ≤ cw) :
    (wrap cw b).x ≤ cw + b.r := by
  unfold wrap
  split_ifs with h1 h2
  · show -b.r ≤ cw + b.r
    linarith
  · show cw + b.r ≤ cw + b.r
    linarith
  · show b.x ≤ cw + b.r
    push_neg at h1
    linarith

theorem recycle_y_lb (cw ch u : ℝ) (b : Bubble) (hr : 0 ≤ b.r) (hch : 0 ≤ ch) :
    -b.r ≤ (recycle cw ch u b).y := by
  unfold recycle
  split_ifs with h1
  · show -b.r ≤ ch + b.r * 2
    linarith
  · show -b.r ≤ b.y
    push_neg at h1
    linarith

theorem update_inactive_eq (o : Options) (dpr cw ch : ℝ) (m : Mouse) (t u : ℝ)
    (b : Bubble) (hm : m.active = false) :
    updateBubble o dpr cw ch m t u b
      = wrap cw (recycle cw ch u (move o t (breathAt o t) (breathe (breathAt o t) b))) := by
  unfold updateBubble
  rw [interact_inactive _ _ _ _ hm]

theorem frameAux_length (o : Options) (dpr cw ch : ℝ) (m : Mouse) (t : ℝ)
    (us : ℕ → ℝ) : ∀ (i : ℕ) (bs : List Bubble),
    (frameAux o dpr cw ch m t us i bs).length = bs.length := by
  intro i bs
  induction bs generalizing i with
  | nil => rfl
  | cons b tl ih => simp [frameAux, ih]

theorem dist_near : distToMouse cMouse cBubbleNear = 10 := by
  have h : (cBubbleNear.x - cMouse.x) * (cBubbleNear.x - cMouse.x) +
      (cBubbleNear.y - cMouse.y) * (cBubbleNear.y - cMouse.y) = 10 * 10 := by
    norm_num [cBubbleNear, cMouse]
  unfold distToMouse
  rw [h, Real.sqrt_mul_self (by norm_num : (0:ℝ) ≤ 10)]

theorem dist_far : distToMouse cMouse cBubbleFar = 90 := by
  have h : (cBubbleFar.x - cMouse.x) * (cBubbleFar.x - cMouse.x) +
      (cBubbleFar.y - cMouse.y) * (cBubbleFar.y - cMouse.y) = 90 * 90 := by
    norm_num [cBubbleFar, cMouse]
  unfold distToMouse
  rw [h, Real.sqrt_mul_self (by norm_num : (0:ℝ) ≤ 90)]

theorem interact_near_x : (interact defaultOptions 1 cMouse cBubbleNear).x = 167 / 15 := by
  unfold interact
  rw [show cMouse.active = true from rfl]
  simp only [if_true]
  rw [if_pos (by rw [dist_near]; norm_num)]
  dsimp only
  rw [dist_near]
  norm_num [cBubbleNear, cMouse, forceFactor, defaultOptions]

theorem interact_near_y : (interact defaultOptions 1 cMouse cBubbleNear).y = 0 := by
  unfold interact
  rw [show cMouse.active = true from rfl]
  simp only [if_true]
  rw [if_pos (by rw [dist_near]; norm_num)]
  dsimp only
  norm_num [cBubbleNear, cMouse]

theorem interact_far_x : (interact defaultOptions 1 cMouse cBubbleFar).x = 477 / 5 := by
  unfold interact
  rw [show cMouse.active = true from rfl]
  simp only [if_true]
  rw [if_pos (by rw [dist_far]; norm_num)]
  dsimp only
  rw [dist_far]
  norm_num [cBubbleFar, cMouse, forceFactor, defaultOptions]

theorem interact_far_y : (interact defaultOptions 1 cMouse cBubbleFar).y = 0 := by
  unfold interact
  rw [show cMouse.active = true from rfl]
  simp only [if_true]
  rw [if_pos (by rw [dist_far]; norm_num)]
  dsimp only
  norm_num [cBubbleFar, cMouse]

theorem disp_near : interactDisp defaultOptions 1 cMouse cBubbleNear = 17 / 15 := by
  unfold interactDisp
  rw [interact_near_x, interact_near_y]
  have h : (167 / 15 - cBubbleNear.x) * (167 / 15 - cBubbleNear.x) +
      ((0 : ℝ) - cBubbleNear.y) * (0 - cBubbleNear.y) = (17 / 15) * (17 / 15) := by
    norm_num [cBubbleNear]
  rw [h, Real.sqrt_mul_self (by norm_num : (0:ℝ) ≤ 17 / 15)]

theorem disp_far : interactDisp defaultOptions 1 cMouse cBubbleFar = 27 / 5 := by
  unfold interactDisp
  rw [interact_far_x, interact_far_y]
  have h : (477 / 5 - cBubbleFar.x) * (477 / 5 - cBubbleFar.x) +
      ((0 : ℝ) - cBubbleFar.y) * (0 - cBubbleFar.y) = (27 / 5) * (27 / 5) := by
    norm_num [cBubbleFar]
  rw [h, Real.sqrt_mul_self (by norm_num : (0:ℝ) ≤ 27 / 5)]

theorem scenario_r_eq (ds : ℕ → Draws) (us : ℕ → ℝ) (dpr mx my : ℝ) :
    (frame scenarioOptions dpr 100 100 { x := mx, y := my, active := false } 0 us
        (init scenarioOptions 100 100 ds)).map Bubble.r = [10] := by
  have hinit : init scenarioOptions 100 100 ds
      = [makeBubble scenarioOptions 100 100 (ds 0)] := rfl
  rw [hinit]
  unfold frame
  simp only [frameAux, List.map]
  rw [update_r, breathAt_zero]
  norm_num [makeBubble, rand, scenarioOptions, defaultOptions]

/-! ### Claims -/

/-- C1 counterexample: with the pointer active at the origin and a bubble at
distance 10 (well inside the 180·dpr radius), one interaction step moves the
bubble strictly FARTHER from the pointer (from distance 10 to 167/15):
the displacement `(dx, dy) * force` points away from the pointer, not toward
it, so the claimed attraction fails. -/
theorem C1_counterexample :
    distToMouse cMouse (interact defaultOptions 1 cMouse cBubbleNear)
      > distToMouse cMouse cBubbleNear := by
  have hf : 0 ≤ 1 + forceFactor defaultOptions 1 (distToMouse cMouse cBubbleNear) := by
    rw [dist_near]
    norm_num [forceFactor, defaultOptions]
  rw [interact_dist_eq defaultOptions 1 cMouse cBubbleNear rfl
    (by rw [dist_near]; norm_num) hf, dist_near]
  norm_num [forceFactor, defaultOptions]

/-- C1 (amended): for any particle the interaction step applies a displacement
AWAY from the pointer, scaled by interactiveForce × (1 − distance/(180·dpr));
after the interaction step the particle is never closer to the pointer than
before it (whenever the interactive force is nonnegative and dpr positive). -/
theorem C1_interaction_repels (o : Options) (dpr : ℝ) (m : Mouse) (b : Bubble)
    (hF : 0 ≤ o.interactiveForce) (hdpr : 0 < dpr) :
    distToMouse m b ≤ distToMouse m (interact o dpr m b) := by
  cases hm : m.active with
  | false =>
    rw [interact_inactive o dpr m b hm]
  | true =>
    by_cases hd : distToMouse m b < 180 * dpr
    · have hd0 : 0 ≤ distToMouse m b := Real.sqrt_nonneg _
      have hff : 0 ≤ forceFactor o dpr (distToMouse m b) := by
        unfold forceFactor
        have h1 : distToMouse m b / (180 * dpr) < 1 := (div_lt_one (by positivity)).2 hd
        have h2 : 0 ≤ 1 - distToMouse m b / (180 * dpr) := by linarith
        exact mul_nonneg h2 hF
      rw [interact_dist_eq o dpr m b hm hd (by linarith)]
      nlinarith [mul_nonneg hff hd0]
    · unfold interact
      simp only [hm, if_true]
      rw [if_neg hd]

/-- C1 witness: the amended theorem applied at dpr = 1, the default options
and the fixture bubble 10 px from the active pointer. -/
theorem C1_witness :
    0 ≤ defaultOptions.interactiveForce ∧ (0:ℝ) < 1 ∧
    distToMouse cMouse cBubbleNear
      ≤ distToMouse cMouse (interact defaultOptions 1 cMouse cBubbleNear) :=
  ⟨by norm_num [defaultOptions], by norm_num,
    C1_interaction_repels defaultOptions 1 cMouse cBubbleNear
      (by norm_num [defaultOptions]) (by norm_num)⟩

/-- C2 counterexample: two bubbles at distances 10 and 90 from an active
pointer, both inside the 180·dpr radius; the CLOSER bubble's per-tick
displacement magnitude is 17/15 while the farther one's is 27/5, so the
closer particle's displacement is strictly SMALLER, refuting monotonicity. -/
theorem C2_counterexample :
    distToMouse cMouse cBubbleNear < distToMouse cMouse cBubbleFar ∧
    distToMouse cMouse cBubbleFar < 180 * 1 ∧
    interactDisp defaultOptions 1 cMouse cBubbleNear
      < interactDisp defaultOptions 1 cMouse cBubbleFar := by
  refine ⟨?_, ?_, ?_⟩
  · rw [dist_near, dist_far]
    norm_num
  · rw [dist_far]
    norm_num
  · rw [disp_near, disp_far]
    norm_num

/-- C2 (amended): what is monotone in distance is the force MULTIPLIER
`(1 − dist/(180·dpr)) × interactiveForce` applied to the particle's offset
from the pointer: for two particles at different distances the closer one
has the strictly greater multiplier.  The resulting displacement magnitude,
distance × multiplier, is not monotone in distance. -/
theorem C2_forceFactor_antitone (o : Options) (dpr d1 d2 : ℝ)
    (hdpr : 0 < dpr) (hF : 0 < o.interactiveForce) (h12 : d1 < d2) :
    forceFactor o dpr d2 < forceFactor o dpr d1 := by
  unfold forceFactor
  have hpos : (0:ℝ) < 180 * dpr := by positivity
  have h : d1 / (180 * dpr) < d2 / (180 * dpr) := by gcongr
  nlinarith [mul_pos (sub_pos.2 h) hF]

/-- C2 witness: the amended theorem applied at distances 10 < 90, dpr = 1,
default options. -/
theorem C2_witness : forceFactor defaultOptions 1 90 < forceFactor defaultOptions 1 10 :=
  C2_forceFactor_antitone defaultOptions 1 10 90 (by norm_num)
    (by norm_num [defaultOptions]) (by norm_num)

/-- C3 counterexample: in the claimed scenario (particleCount 1, radius range
pinned at 10, 100×100 surface, no pointer, one advance at t = 0) the sole
particle's currentRadius is NOT 8.2: at t = 0 the sine formula gives
breath = 1/2, not 0. -/
theorem C3_counterexample :
    ¬ (frame scenarioOptions 1 100 100 { x := 0, y := 0, active := false } 0 (fun _ => 0)
        (init scenarioOptions 100 100 dsZero)).map Bubble.r = [8.2] := by
  rw [scenario_r_eq dsZero (fun _ => 0) 1 0 0]
  simp only [List.cons.injEq, and_true]
  norm_num

/-- C3 (amended): in that scenario the particle's currentRadius after one
advance at t = 0 equals 10 × 1.0 = 10, because the breathing factor of the
sine formula is (sin 0 + 1)/2 = 1/2 at t = 0, making the scale factor
0.82 + 0.5 × 0.36 = 1. -/
theorem C3_scenario_radius (ds : ℕ → Draws) (us : ℕ → ℝ) (dpr mx my : ℝ) :
    (frame scenarioOptions dpr 100 100 { x := mx, y := my, active := false } 0 us
        (init scenarioOptions 100 100 ds)).map Bubble.r = [10] ∧
    breathAt scenarioOptions 0 = 1 / 2 :=
  ⟨scenario_r_eq ds us dpr mx my, breathAt_zero scenarioOptions⟩

/-- C4: for every particle and every tick, after the update currentRadius
equals baseRadius × (0.82 + breath × 0.36) and hence lies in
[0.82 × baseRadius, 1.18 × baseRadius], the breath being the shared
breathing factor of the tick. -/
theorem C4_breathing_bound (o : Options) (dpr cw ch : ℝ) (m : Mouse) (t u : ℝ)
    (b : Bubble) (hb : 0 ≤ b.baseR) :
    (updateBubble o dpr cw ch m t u b).r = b.baseR * (0.82 + breathAt o t * 0.36) ∧
    0.82 * b.baseR ≤ (updateBubble o dpr cw ch m t u b).r ∧
    (updateBubble o dpr cw ch m t u b).r ≤ 1.18 * b.baseR := by
  have hr := update_r o dpr cw ch m t u b
  have h0 := breathAt_nonneg o t
  have h1 := breathAt_le_one o t
  refine ⟨hr, ?_, ?_⟩
  · rw [hr]
    nlinarith
  · rw [hr]
    nlinarith

/-- C4 witness: the theorem applied to the fixture bubble (baseRadius 5) at
t = 0 with the default options. -/
theorem C4_witness :
    0 ≤ cBubbleNear.baseR ∧
    0.82 * cBubbleNear.baseR ≤ (updateBubble defaultOptions 1 100 100 cMouse 0 0 cBubbleNear).r :=
  ⟨by norm_num [cBubbleNear],
    (C4_breathing_bound defaultOptions 1 100 100 cMouse 0 0 cBubbleNear
      (by norm_num [cBubbleNear])).2.1⟩

/-- C5: the breathing factor equals (sin(2π·t/period) + 1)/2, lies in [0, 1]
for every elapsed time, and is exactly periodic with period
breathingPeriod. -/
theorem C5_breath_formula (o : Options) (t : ℝ) :
    breathAt o t = (Real.sin (2 * Real.pi * t / o.breathingPeriod) + 1) / 2 ∧
    0 ≤ breathAt o t ∧ breathAt o t ≤ 1 ∧
    breathAt o (t + o.breathingPeriod) = breathAt o t := by
  refine ⟨?_, breathAt_nonneg o t, breathAt_le_one o t, ?_⟩
  · unfold breathAt
    have h : t / o.breathingPeriod * (Real.pi * 2) = 2 * Real.pi * t / o.breathingPeriod := by
      ring
    rw [h]
  · by_cases hP : o.breathingPeriod = 0
    · rw [hP, add_zero]
    · unfold breathAt
      have h : (t + o.breathingPeriod) / o.breathingPeriod * (Real.pi * 2)
          = t / o.breathingPeriod * (Real.pi * 2) + 2 * Real.pi := by
        field_simp
        ring
      rw [h, Real.sin_add_two_pi]

/-- C6: horizontal wraparound is exact: a particle with x > width + r is set
to exactly −r by the wrap check, and one with x + r < 0 is set to exactly
width + r. -/
theorem C6_wrap_exact (cw : ℝ) (b : Bubble) (hr : 0 ≤ b.r) (hcw : 0 ≤ cw) :
    (b.x > cw + b.r → (wrap cw b).x = -b.r) ∧
    (b.x + b.r < 0 → (wrap cw b).x = cw + b.r) := by
  constructor
  · intro h
    unfold wrap
    rw [if_pos (by linarith : b.x - b.r > cw)]
  · intro h
    unfold wrap
    rw [if_neg (by push_neg; linarith : ¬ b.x - b.r > cw), if_pos h]

/-- C6 witness: the fixture bubble at x = width + r + 1 = 111 on a 100-wide
surface wraps to exactly −r = −10. -/
theorem C6_witness :
    wrapBubble.x = 100 + wrapBubble.r + 1 ∧ (wrap 100 wrapBubble).x = -wrapBubble.r := by
  constructor
  · norm_num [wrapBubble]
  · exact (C6_wrap_exact 100 wrapBubble (by norm_num [wrapBubble]) (by norm_num)).1
      (by norm_num [wrapBubble])

/-- C7: the vertical recycle, when it fires (y + r < 0), sets y to
height + 2r and x to the fresh random horizontal position u·width while
leaving baseRadius, hue, both velocity components and the wobble seed
unchanged. -/
theorem C7_recycle_preserves_identity (cw ch u : ℝ) (b : Bubble) (h : b.y + b.r < 0) :
    (recycle cw ch u b).y = ch + b.r * 2 ∧
    (recycle cw ch u b).x = u * cw ∧
    (recycle cw ch u b).baseR = b.baseR ∧
    (recycle cw ch u b).hue = b.hue ∧
    (recycle cw ch u b).vx = b.vx ∧
    (recycle cw ch u b).vy = b.vy ∧
    (recycle cw ch u b).wobbleSeed = b.wobbleSeed := by
  unfold recycle
  rw [if_pos h]
  exact ⟨rfl, rfl, rfl, rfl, rfl, rfl, rfl⟩

/-- C7 witness: the theorem applied to the fixture bubble fully above the top
edge. -/
theorem C7_witness :
    recycleBubble.y + recycleBubble.r < 0 ∧
    (recycle 100 100 (1/2) recycleBubble).wobbleSeed = recycleBubble.wobbleSeed :=
  ⟨by norm_num [recycleBubble],
    (C7_recycle_preserves_identity 100 100 (1/2) recycleBubble
      (by norm_num [recycleBubble])).2.2.2.2.2.2⟩

/-- C8: the particle count after initialization equals particleCount (for a
nonnegative count), the count is preserved by every advance call, and a
non-positive particleCount yields an empty field. -/
theorem C8_particle_count (o : Options) (cw ch : ℝ) (ds : ℕ → Draws) (dpr : ℝ)
    (m : Mouse) (t : ℝ) (us : ℕ → ℝ) (bs : List Bubble) :
    (0 ≤ o.bubbleCount → ((init o cw ch ds).length : ℤ) = o.bubbleCount) ∧
    (frame o dpr cw ch m t us bs).length = bs.length ∧
    (o.bubbleCount ≤ 0 → init o cw ch ds = []) := by
  refine ⟨?_, ?_, ?_⟩
  · intro h
    simp [init, Int.toNat_of_nonneg h]
  · exact frameAux_length o dpr cw ch m t us 0 bs
  · intro h
    simp [init, Int.toNat_of_nonpos h]

/-- C8 witness: the default configuration yields exactly 42 particles. -/
theorem C8_witness :
    0 ≤ defaultOptions.bubbleCount ∧
    ((init defaultOptions 100 100 dsZero).length : ℤ) = 42 := by
  refine ⟨by norm_num [defaultOptions], ?_⟩
  have h := (C8_particle_count defaultOptions 100 100 dsZero 1 cMouse 0 (fun _ => 0) []).1
    (by norm_num [defaultOptions])
  rw [h]
  norm_num [defaultOptions]

/-- C9 counterexample: construction with an inverted radius range
(minRadius 20 > maxRadius 10) is NOT rejected: the constructor proceeds and
produces all five particles, every one with baseRadius strictly below the
configured minRadius. -/
theorem C9_counterexample :
    badOptions.maxRadius < badOptions.minRadius ∧
    (construct badOptions 100 100 dsHalf).bubbles.length = 5 ∧
    ∀ b ∈ (construct badOptions 100 100 dsHalf).bubbles, b.baseR < badOptions.minRadius := by
  refine ⟨by norm_num [badOptions, defaultOptions], rfl, ?_⟩
  intro b hb
  simp only [construct, init, List.mem_map, List.mem_range] at hb
  obtain ⟨i, hi, rfl⟩ := hb
  norm_num [makeBubble, rand, badOptions, defaultOptions, dsHalf]

/-- C9 (amended): construction performs no validation at all: any numeric
configuration is accepted; with an inverted radius range it still creates
toNat particleCount particles, whose baseRadius lands in the reversed
interval [maxRadius, minRadius] instead of failing. -/
theorem C9_no_validation (o : Options) (cw ch : ℝ) (ds : ℕ → Draws)
    (hinv : o.maxRadius < o.minRadius)
    (hds : ∀ i, 0 ≤ (ds i).ur ∧ (ds i).ur ≤ 1) :
    (construct o cw ch ds).bubbles.length = o.bubbleCount.toNat ∧
    ∀ b ∈ (construct o cw ch ds).bubbles,
      o.maxRadius ≤ b.baseR ∧ b.baseR ≤ o.minRadius := by
  constructor
  · simp [construct, init]
  · intro b hb
    simp only [construct, init, List.mem_map, List.mem_range] at hb
    obtain ⟨i, hi, rfl⟩ := hb
    have h := hds i
    unfold makeBubble rand
    dsimp only
    constructor
    · nlinarith [mul_nonneg (by linarith [h.2] : (0:ℝ) ≤ 1 - (ds i).ur)
        (by linarith : (0:ℝ) ≤ o.minRadius - o.maxRadius)]
    · nlinarith [mul_nonneg h.1 (by linarith : (0:ℝ) ≤ o.minRadius - o.maxRadius)]

/-- C9 witness: the amended theorem applied to the inverted-range fixture
configuration with the constant-1/2 draw stream. -/
theorem C9_witness :
    badOptions.maxRadius < badOptions.minRadius ∧
    (construct badOptions 100 100 dsHalf).bubbles.length = Int.toNat badOptions.bubbleCount :=
  ⟨by norm_num [badOptions, defaultOptions],
    (C9_no_validation badOptions 100 100 dsHalf (by norm_num [badOptions, defaultOptions])
      (fun _ => ⟨by norm_num [dsHalf], by norm_num [dsHalf]⟩)).1⟩

/-- C10: with no pointer active, one tick's update re-establishes position
containment for any prior position: after the wrap and recycle checks,
−r ≤ x ≤ width + r and −r ≤ y, where r is the particle's currentRadius of
that tick. -/
theorem C10_containment (o : Options) (dpr cw ch : ℝ) (m : Mouse) (t u : ℝ) (b : Bubble)
    (hm : m.active = false) (hb : 0 ≤ b.baseR) (hcw : 0 ≤ cw) (hch : 0 ≤ ch) :
    -(updateBubble o dpr cw ch m t u b).r ≤ (updateBubble o dpr cw ch m t u b).x ∧
    (updateBubble o dpr cw ch m t u b).x ≤ cw + (updateBubble o dpr cw ch m t u b).r ∧
    -(updateBubble o dpr cw ch m t u b).r ≤ (updateBubble o dpr cw ch m t u b).y := by
  rw [update_inactive_eq o dpr cw ch m t u b hm]
  have h0 := breathAt_nonneg o t
  have hr2 : 0 ≤ (recycle cw ch u (move o t (breathAt o t) (breathe (breathAt o t) b))).r := by
    rw [recycle_r]
    show 0 ≤ b.baseR * (0.82 + breathAt o t * 0.36)
    nlinarith
  refine ⟨?_, ?_, ?_⟩
  · rw [wrap_r]
    exact wrap_x_lb cw _ hr2 hcw
  · rw [wrap_r]
    exact wrap_x_ub cw _ hr2 hcw
  · rw [wrap_r, wrap_y]
    have hy := recycle_y_lb cw ch u (move o t (breathAt o t) (breathe (breathAt o t) b))
      (by show 0 ≤ b.baseR * (0.82 + breathAt o t * 0.36); nlinarith) hch
    rw [recycle_r]
    exact hy

/-- C10 witness: the theorem applied to the fixture bubble with an inactive
pointer on a 100×100 surface at t = 0. -/
theorem C10_witness :
    mInactive.active = false ∧
    -(updateBubble defaultOptions 1 100 100 mInactive 0 0 cBubbleNear).r
      ≤ (updateBubble defaultOptions 1 100 100 mInactive 0 0 cBubbleNear).x :=
  ⟨rfl, (C10_containment defaultOptions 1 100 100 mInactive 0 0 cBubbleNear rfl
    (by norm_num [cBubbleNear]) (by norm_num) (by norm_num)).1⟩

end

end BreathBubbles
